import Mathlib

/-!
# Verification of the multi-model OpenRouter orchestrator

Shallow embedding of the request-orchestration core of the `agentic-skills`
repository: the two OpenRouter-calling modules
(`recommendations/multi_ai_recs.py` and `writing/multi_ai_writer.py`),
plus the CLI exit-code paths of `web-search/firecrawl_search.py`.

Python strings are modelled as Lean `String` (a wrapper around `List Char`),
with Python's `str.strip` / `str.rstrip` / `str.split("\n")` / `"\n".join`
re-implemented at the character-list level so that their interaction can be
reasoned about directly.  Wall-clock time (`elapsed_seconds`) is not
modelled.  JSON values arriving from the network are modelled by typed
structures carrying exactly the fields the code reads; `json.loads` of an
SSE fragment is an abstract parameter `parse : String → Option Chunk`
(`none` models `json.JSONDecodeError`).
-/

namespace AgenticSkills

/-- ASCII whitespace as recognised by Python's default `str.strip`. -/
def pyIsSpace (c : Char) : Bool :=
  c = ' ' || c = '\t' || c = '\n' || c = '\r' || c = '\x0b' || c = '\x0c'

/-- `str.lstrip` on a character list. -/
def stripLeftList (cs : List Char) : List Char := cs.dropWhile pyIsSpace

/-- `str.rstrip` on a character list. -/
def stripRightList (cs : List Char) : List Char :=
  (cs.reverse.dropWhile pyIsSpace).reverse

/-- `str.strip` on a character list. -/
def stripList (cs : List Char) : List Char := stripRightList (stripLeftList cs)

/-- Python `s.strip()`. -/
def pyStrip (s : String) : String := ⟨stripList s.data⟩

/-- Python `s.rstrip()`. -/
def pyRstrip (s : String) : String := ⟨stripRightList s.data⟩

/-- Helper for `str.split("\n")`: accumulate the current field (reversed). -/
def splitNlAux : List Char → List Char → List (List Char)
  | [], acc => [acc.reverse]
  | c :: cs, acc =>
    if c = '\n' then acc.reverse :: splitNlAux cs []
    else splitNlAux cs (c :: acc)

/-- Python `s.split("\n")`. -/
def pySplitNl (s : String) : List String := (splitNlAux s.data []).map String.mk

/-- Helper for `"\n".join`: interleave `'\n'` between character lists. -/
def joinNlList : List (List Char) → List Char
  | [] => []
  | [x] => x
  | x :: y :: xs => x ++ '\n' :: joinNlList (y :: xs)

/-- Python `"\n".join(lines)`. -/
def pyJoinNl (l : List String) : String := ⟨joinNlList (l.map String.data)⟩

/-- Python `s[:n]` (slicing by characters). -/
def pyTake (n : Nat) (s : String) : String := ⟨s.data.take n⟩

/-- Python `s[n:]` (slicing by characters). -/
def pyDrop (n : Nat) (s : String) : String := ⟨s.data.drop n⟩

/-- Python `s.startswith(pre)`. -/
def pyStartsWith (s pre : String) : Bool := s.data.take pre.data.length == pre.data

/-!
## Prompt builder (`multi_ai_recs.build_user_prompt`)
-/

/-- `build_user_prompt` from `recommendations/multi_ai_recs.py` (lines
530-533): date stamp, trimmed request, and a SOURCES block only when the
trimmed sources text is non-empty. -/
def build_user_prompt (request_text sources_text today : String) : String :=
  if pyStrip sources_text ≠ "" then
    "TODAY: " ++ today ++ "\n\nREQUEST:\n" ++ pyStrip request_text ++
      "\n\nSOURCES:\n" ++ pyStrip sources_text ++ "\n"
  else
    "TODAY: " ++ today ++ "\n\nREQUEST:\n" ++ pyStrip request_text ++ "\n"

/-!
## Transport-layer data model (shared by both OpenRouter modules)
-/

/-- The nested `"reasoning"` request parameter: either an effort level or a
token budget (OpenRouter rejects both at once, so the code always picks one). -/
inductive ReasoningParam where
  | effort (level : String)
  | rmax (tokens : Nat)
  deriving Repr, DecidableEq

/-- The outbound request payload fields the claims are about.  The message
list and temperature are threaded through unchanged by the code and are
omitted. -/
structure Payload where
  model : String
  max_tokens : Nat
  stream : Bool
  reasoning : Option ReasoningParam
  deriving Repr, DecidableEq

/-- One element of a structured-content list in a chat message: either a bare
string or an object with an optional `"text"` field. -/
inductive ContentPart where
  | str (s : String)
  | obj (text : Option String)
  deriving Repr, DecidableEq

/-- The `message.content` field: absent/null, a string, a list of segments,
or some other JSON type (coerced to `""`). -/
inductive ContentVal where
  | null
  | str (s : String)
  | parts (l : List ContentPart)
  | other
  deriving Repr, DecidableEq

/-- `_coerce_content_to_text` (identical in both modules): strings pass
through, lists concatenate the text-bearing segments in order, everything
else becomes `""`. -/
def coerce_content_to_text : ContentVal → String
  | .null => ""
  | .str s => s
  | .parts l =>
    String.join (l.map fun part =>
      match part with
      | .str s => s
      | .obj (some t) => t
      | .obj none => "")
  | .other => ""

/-- An in-band error envelope: a JSON object carrying an optional
`"message"` field, or a non-object value.  `reprS` carries Python's
`str(err)` rendering, which the code falls back to. -/
inductive ErrVal where
  | obj (message : Option String) (reprS : String)
  | plain (reprS : String)
  deriving Repr, DecidableEq

/-- The `message` object of a batch choice. -/
structure ORMessage where
  content : ContentVal := .null
  reasoning : Option String := none
  deriving Repr, DecidableEq

/-- One element of the batch `choices` array (`none` models a JSON null,
which the code replaces with `{}`). -/
structure ORChoice where
  message : Option ORMessage := none
  finish_reason : Option String := none
  deriving Repr, DecidableEq

/-- The parsed JSON body of a 200 batch response.  `reprS` carries Python's
`str(data)` (used only by the writer's no-choices error message). -/
structure BatchData where
  error : Option ErrVal := none
  choices : List (Option ORChoice) := []
  reprS : String := ""
  deriving Repr, DecidableEq

/-- An HTTP response as observed by the code: a status, the text body (read
when the status is not 200) and the parsed JSON body (`none` when the body
is not JSON, which makes `resp.json()` raise a client error). -/
structure HttpResp where
  status : Nat
  text : String := ""
  data : Option BatchData := none
  deriving Repr, DecidableEq

/-- Exceptions observable around an HTTP call: `asyncio.TimeoutError`,
`aiohttp.ClientError` (with `str(e)`), or any other Python exception (with
`str(e)`) — the three `except` arms of the code. -/
inductive ExnKind where
  | timeout
  | net (msg : String)
  | pyerr (msg : String)
  deriving Repr, DecidableEq

/-- What the remote end does with one batch request: raise, or answer. -/
inductive BatchResp where
  | exn (e : ExnKind)
  | ok (r : HttpResp)
  deriving Repr, DecidableEq

/-- The result dictionary produced by one model call.  Each field models the
identically-named key of the Python dict (`none` = key absent);
`elapsed_seconds` is wall-clock time and is not modelled. -/
structure RawResult where
  content : Option String := none
  error : Option String := none
  finish_reason : Option String := none
  has_reasoning : Option Bool := none
  streamed : Bool := false
  retried_with_max_tokens : Option Nat := none
  retried_reasoning_effort : Option String := none
  deriving Repr, DecidableEq

/-- Python truthiness of an optional string (`None` and `""` are falsy). -/
def truthyStr : Option String → Bool
  | none => false
  | some s => s ≠ ""

/-- Extract the display message of an in-band error envelope:
`err.get("message") or str(err)` when the envelope is a dict, `str(err)`
otherwise (used with this exact semantics by both the batch `"error" in
data` branch and the stream `"error" in chunk` branch of
`multi_ai_recs.py`). -/
def errEnvelopeMsg : ErrVal → String
  | .obj (some m) r => if m ≠ "" then m else r
  | .obj none r => r
  | .plain r => r

/-!
## Recommendations module (`recommendations/multi_ai_recs.py`)
-/

namespace Recs

/-- `MODEL_REASONING_OVERHEAD` (lines 104-107). -/
def MODEL_REASONING_OVERHEAD : List (String × Nat) :=
  [("openai/gpt-5.2", 4096), ("google/gemini-3.1-pro-preview", 4096)]

/-- `MODEL_REASONING_OVERHEAD.get(model_id, 0)`. -/
def overhead (model : String) : Nat :=
  (MODEL_REASONING_OVERHEAD.lookup model).getD 0

/-- `MODEL_EXTRA_PARAMS` (lines 112-117): the per-model `"reasoning"`
object. -/
def extraParams (model : String) : Option ReasoningParam :=
  if model = "openai/gpt-5.2" then some (.effort "high")
  else if model = "google/gemini-3.1-pro-preview" then some (.rmax 4096)
  else none

/-- `MODELS_WITH_RETRY` (line 120). -/
def MODELS_WITH_RETRY : List String :=
  ["openai/gpt-5.2", "google/gemini-3.1-pro-preview"]

/-- Payload construction shared by `_post` (lines 283-301) and the streaming
call (lines 384-397): wire `max_tokens` is the effective budget plus the
model overhead; the `"reasoning"` key is the model's extra params, overridden
by `extra_params` when the retry supplies one (later `**` wins). -/
def mkPayload (model : String) (effective_max_tokens : Nat)
    (override : Option ReasoningParam) (stream : Bool) : Payload :=
  { model := model
    max_tokens := effective_max_tokens + overhead model
    stream := stream
    reasoning := override.orElse fun _ => extraParams model }

/-- Body handling of `_post` on a 200 JSON response (lines 309-334). -/
def processBatchData (d : BatchData) : RawResult :=
  match d.error with
  | some e => { error := some (errEnvelopeMsg e) }
  | none =>
    match d.choices with
    | [] => { error := some "Unexpected response structure" }
    | c0 :: _ =>
      let c := c0.getD {}
      let m := c.message.getD {}
      let content := coerce_content_to_text m.content
      if content ≠ "" then
        { content := some (pyStrip content), finish_reason := c.finish_reason }
      else
        { error := some "Empty response from model"
          finish_reason := c.finish_reason
          has_reasoning := some (truthyStr m.reasoning) }

/-- `_post` (lines 283-334) against an abstract server: raised exceptions
propagate (`Except.error`); non-200 statuses become an `HTTP` error dict
with the body truncated to 300 characters; a non-JSON 200 body makes
`resp.json()` raise a client error. -/
def post (server : Payload → BatchResp) (p : Payload) : Except ExnKind RawResult :=
  match server p with
  | .exn e => .error e
  | .ok r =>
    if r.status ≠ 200 then
      .ok { error := some ("HTTP " ++ toString r.status ++ ": " ++ pyTake 300 r.text) }
    else
      match r.data with
      | none => .error (.net "Attempt to decode JSON with unexpected mimetype")
      | some d => .ok (processBatchData d)

/-- The retry guard of lines 341-346 (and, identically, lines 498-503):
model eligible, empty response, finish reason `length`. -/
def retryCondition (model : String) (r : RawResult) : Bool :=
  MODELS_WITH_RETRY.contains model &&
    r.error == some "Empty response from model" &&
    r.finish_reason == some "length"

/-- The enlarged retry budget `min(max(max_tokens * 3, 8000), 16000)`
(lines 347 and 505). -/
def retryBudget (max_tokens : Nat) : Nat :=
  min (max (max_tokens * 3) 8000) 16000

/-- The error dicts produced by the three `except` arms of
`_call_openrouter_batch` (lines 361-366). -/
def exnResult (timeout_seconds : Nat) : ExnKind → RawResult
  | .timeout => { error := some ("Timeout after " ++ toString timeout_seconds ++ "s") }
  | .net m => { error := some ("Network error: " ++ m) }
  | .pyerr m => { error := some ("Unexpected error: " ++ m) }

/-- `_call_openrouter_batch` (lines 265-366).  Alongside the result dict we
return the list of request payloads actually posted, in order, so that
"exactly one retry" is observable. -/
def call_openrouter_batch (server : Payload → BatchResp) (model : String)
    (max_tokens timeout_seconds : Nat) : RawResult × List Payload :=
  let p1 := mkPayload model max_tokens none false
  match post server p1 with
  | .error e => (exnResult timeout_seconds e, [p1])
  | .ok r =>
    if retryCondition model r then
      let rv := retryBudget max_tokens
      let p2 := mkPayload model rv (some (.rmax 512)) false
      match post server p2 with
      | .error e => (exnResult timeout_seconds e, [p1, p2])
      | .ok r2 =>
        ({ r2 with
            retried_with_max_tokens := some rv
            retried_reasoning_effort := some "medium" }, [p1, p2])
    else (r, [p1])

/-!
### Streaming strategy (`_call_openrouter_stream`, lines 369-473)
-/

/-- The `delta` object of one SSE fragment choice. -/
structure Delta where
  content : Option String := none
  reasoning : Option String := none
  deriving Repr, DecidableEq

/-- One element of an SSE fragment's `choices` array. -/
structure DeltaChoice where
  delta : Option Delta := none
  finish_reason : Option String := none
  deriving Repr, DecidableEq

/-- A parsed SSE JSON fragment. -/
structure Chunk where
  error : Option ErrVal := none
  choices : List (Option DeltaChoice) := []
  deriving Repr, DecidableEq

/-- Transport-level exceptions a stream can raise: the stall timeout / total
safety cap (`asyncio.TimeoutError`) or an `aiohttp.ClientError`. -/
inductive StreamExn where
  | timeout
  | net (msg : String)
  deriving Repr, DecidableEq

/-- What the remote end does with one streaming request: raise mid-flight,
or answer with a status, a text body (read on a non-200 status) and the decoded
SSE lines (each already stripped of the trailing newline, as by line 420). -/
inductive StreamResp where
  | exn (e : StreamExn)
  | ok (status : Nat) (text : String) (lines : List String)
  deriving Repr, DecidableEq

/-- The accumulation state of the SSE loop (lines 407-409). -/
structure SState where
  content_parts : List String := []
  reasoning_parts : List String := []
  finish_reason : Option String := none
  deriving Repr, DecidableEq

/-- Outcome of processing one SSE line: continue, break out (terminal
marker), or fail with an in-band stream error. -/
inductive StepOut where
  | cont (st : SState)
  | brk (st : SState)
  | fail (msg : String)
  deriving Repr, DecidableEq

/-- One iteration of the SSE loop body (lines 419-451): blank lines and
`:`-comments are skipped, only `data: ` lines are parsed, `[DONE]` breaks,
malformed JSON is skipped, an in-band error envelope aborts, and otherwise
content / reasoning deltas are appended and a truthy finish reason is
recorded. -/
def procLine (parse : String → Option Chunk) (line : String) (st : SState) : StepOut :=
  if line = "" || pyStartsWith line ":" then .cont st
  else if !pyStartsWith line "data: " then .cont st
  else
    let data_str := pyDrop 6 line
    if pyStrip data_str = "[DONE]" then .brk st
    else
      match parse data_str with
      | none => .cont st
      | some chunk =>
        match chunk.error with
        | some e => .fail ("Stream error: " ++ errEnvelopeMsg e)
        | none =>
          match chunk.choices with
          | [] => .cont st
          | c0 :: _ =>
            let c := c0.getD {}
            let delta := c.delta.getD {}
            let st1 :=
              if truthyStr delta.content then
                { st with content_parts := st.content_parts ++ [delta.content.getD ""] }
              else st
            let st2 :=
              if truthyStr delta.reasoning then
                { st1 with reasoning_parts := st1.reasoning_parts ++ [delta.reasoning.getD ""] }
              else st1
            let st3 :=
              if truthyStr c.finish_reason then
                { st2 with finish_reason := c.finish_reason }
              else st2
            .cont st3

/-- The `async for` loop over SSE lines: stops at `[DONE]`, aborts on an
in-band error (returning its message), otherwise folds `procLine`. -/
def streamLoop (parse : String → Option Chunk) :
    List String → SState → Except String SState
  | [], st => .ok st
  | l :: rest, st =>
    match procLine parse l st with
    | .fail m => .error m
    | .brk st' => .ok st'
    | .cont st' => streamLoop parse rest st'

/-- End-of-stream handling (lines 453-470): non-empty trimmed accumulated
content is a success, otherwise an empty-response failure recording whether
any reasoning was streamed. -/
def streamFinalize (st : SState) : RawResult :=
  let content := pyStrip (String.join st.content_parts)
  if content ≠ "" then
    { content := some content, finish_reason := st.finish_reason, streamed := true }
  else
    { error := some "Empty response from model"
      finish_reason := st.finish_reason
      has_reasoning := some (!st.reasoning_parts.isEmpty)
      streamed := true }

/-- `_call_openrouter_stream` (lines 369-473) against an abstract server.
Transport exceptions (stall timeout, safety cap, client errors) propagate as
`Except.error`; the issued payload is returned for observation. -/
def call_openrouter_stream (parse : String → Option Chunk)
    (serverS : Payload → StreamResp) (model : String) (max_tokens : Nat) :
    Except StreamExn RawResult × Payload :=
  let p := mkPayload model max_tokens none true
  match serverS p with
  | .exn e => (.error e, p)
  | .ok status text lines =>
    if status ≠ 200 then
      (.ok { error := some ("HTTP " ++ toString status ++ ": " ++ pyTake 300 text) }, p)
    else
      match streamLoop parse lines {} with
      | .error m => (.ok { error := some m }, p)
      | .ok st => (.ok (streamFinalize st), p)

/-- `_call_openrouter` (lines 476-527): streaming first (unless disabled);
on an empty-with-length streamed result for an eligible model, one batch
reissue at the enlarged budget (annotated with budget and effort); on a
transport exception, batch fallback at the original budget; otherwise the
streamed result is returned as-is. -/
def call_openrouter (parse : String → Option Chunk)
    (serverS : Payload → StreamResp) (serverB : Payload → BatchResp)
    (model : String) (max_tokens timeout_seconds : Nat) (stream : Bool) :
    RawResult × List Payload :=
  if stream then
    match call_openrouter_stream parse serverS model max_tokens with
    | (.ok r, p) =>
      if retryCondition model r then
        let rv := retryBudget max_tokens
        let br := call_openrouter_batch serverB model rv timeout_seconds
        ({ br.1 with
            retried_with_max_tokens := some rv
            retried_reasoning_effort := some "medium" }, p :: br.2)
      else (r, [p])
    | (.error _, p) =>
      let br := call_openrouter_batch serverB model max_tokens timeout_seconds
      (br.1, p :: br.2)
  else call_openrouter_batch serverB model max_tokens timeout_seconds

/-!
### Fan-out coordinator (`run_models`, lines 554-594)
-/

/-- The aggregated result of `run_models`: the per-label results dict, the
`meta.models` dict, and `meta.has_sources`. -/
structure FanOut where
  results : String → Option RawResult
  meta_models : String → Option String
  has_sources : Bool

/-- `run_models` (lines 554-594): one task per `(label, model)` pair, results
collected into a dict keyed by label (`out[label] = await task`, so a
duplicate label overwrites), metadata built by dict comprehension with the
same overwrite semantics.  `outcome label model` is the data value produced
by that pair's `_call_openrouter` task. -/
def run_models (outcome : String → String → RawResult)
    (models : List (String × String)) (sources : String) : FanOut :=
  { results := models.foldl
      (fun acc lm => fun k => if k = lm.1 then some (outcome lm.1 lm.2) else acc k)
      (fun _ => none)
    meta_models := models.foldl
      (fun acc lm => fun k => if k = lm.1 then some lm.2 else acc k)
      (fun _ => none)
    has_sources := pyStrip sources != "" }

/-- The model id that the last occurrence of a label is paired with. -/
def lookupLast (l : String) (models : List (String × String)) : Option String :=
  models.foldl (fun acc lm => if lm.1 = l then some lm.2 else acc) none

end Recs

/-!
## Writing module (`writing/multi_ai_writer.py`)
-/

namespace Writer

/-- `MODEL_REASONING_OVERHEAD` (lines 147-150). -/
def MODEL_REASONING_OVERHEAD : List (String × Nat) :=
  [("openai/gpt-5.2", 2048), ("google/gemini-3.1-pro-preview", 2048)]

/-- `MODEL_REASONING_OVERHEAD.get(model_id, 0)`. -/
def overhead (model : String) : Nat :=
  (MODEL_REASONING_OVERHEAD.lookup model).getD 0

/-- `MODEL_EXTRA_PARAMS` (lines 157-164): both models use
`reasoning.max_tokens = 2048`. -/
def extraParams (model : String) : Option ReasoningParam :=
  if model = "openai/gpt-5.2" then some (.rmax 2048)
  else if model = "google/gemini-3.1-pro-preview" then some (.rmax 2048)
  else none

/-- Payload construction of the writer's `_post` (lines 249-267); the writer
never streams, so no `stream` flag is placed in the payload. -/
def mkPayload (model : String) (effective_max_tokens : Nat)
    (override : Option ReasoningParam) : Payload :=
  { model := model
    max_tokens := effective_max_tokens + overhead model
    stream := false
    reasoning := override.orElse fun _ => extraParams model }

/-- Body handling of the writer's `_post` on a 200 JSON response (lines
282-316).  Differences from the recommendations module: the error envelope
is read with `data["error"].get("message", str(data["error"]))` (so a
non-dict envelope raises `AttributeError`, reaching the outer
`except Exception`), the no-choices error message embeds `str(data)[:200]`,
and successful content is NOT stripped. -/
def processBatchData (d : BatchData) : Except ExnKind RawResult :=
  match d.error with
  | some (.obj (some m) _) => .ok { error := some m }
  | some (.obj none r) => .ok { error := some r }
  | some (.plain _) => .error (.pyerr "'str' object has no attribute 'get'")
  | none =>
    match d.choices with
    | [] => .ok { error := some ("Unexpected response structure: " ++ pyTake 200 d.reprS) }
    | c0 :: _ =>
      let c := c0.getD {}
      let m := c.message.getD {}
      let content := coerce_content_to_text m.content
      if content ≠ "" then
        .ok { content := some content, finish_reason := c.finish_reason }
      else
        .ok { error := some "Empty response from model"
              finish_reason := c.finish_reason
              has_reasoning := some (truthyStr m.reasoning) }

/-- The writer's `_post` (lines 249-316) against an abstract server. -/
def post (server : Payload → BatchResp) (p : Payload) : Except ExnKind RawResult :=
  match server p with
  | .exn e => .error e
  | .ok r =>
    if r.status ≠ 200 then
      .ok { error := some ("HTTP " ++ toString r.status ++ ": " ++ pyTake 300 r.text) }
    else
      match r.data with
      | none => .error (.net "Attempt to decode JSON with unexpected mimetype")
      | some d => processBatchData d

/-- The writer's enlarged retry budget `min(max(max_tokens * 3, 2000), 8000)`
(line 331). -/
def retryBudget (max_tokens : Nat) : Nat :=
  min (max (max_tokens * 3) 2000) 8000

/-- The error dicts of the writer's three `except` arms (lines 341-355). -/
def exnResult (timeout_seconds : Nat) : ExnKind → RawResult
  | .timeout => { error := some ("Timeout after " ++ toString timeout_seconds ++ "s") }
  | .net m => { error := some ("Network error: " ++ m) }
  | .pyerr m => { error := some ("Unexpected error: " ++ m) }

/-- `call_openrouter` (lines 210-355): one batch post; on an empty response
with finish reason `length` for `google/gemini-3.1-pro-preview` only, one
retry post at the writer's budget with `reasoning.max_tokens = 512`,
annotated with the retry budget (and nothing else). -/
def call_openrouter (server : Payload → BatchResp) (model : String)
    (max_tokens timeout_seconds : Nat) : RawResult × List Payload :=
  let p1 := mkPayload model max_tokens none
  match post server p1 with
  | .error e => (exnResult timeout_seconds e, [p1])
  | .ok r =>
    if model == "google/gemini-3.1-pro-preview" &&
        r.error == some "Empty response from model" &&
        r.finish_reason == some "length" then
      let rv := retryBudget max_tokens
      let p2 := mkPayload model rv (some (.rmax 512))
      match post server p2 with
      | .error e => (exnResult timeout_seconds e, [p1, p2])
      | .ok r2 => ({ r2 with retried_with_max_tokens := some rv }, [p1, p2])
    else (r, [p1])

/-- Whether the inferred platform is one of the short-form platforms
(`platform in {"slack", "linkedin"}`; `None` is in neither). -/
def isShortForm (platform : Option String) : Bool :=
  platform == some "slack" || platform == some "linkedin"

/-- The platform line-limit enforcement of `normalize_draft` (lines
406-413): for slack/linkedin, rstrip every line, and when more than 6
non-blank lines remain keep only the first 6 of them (dropping blanks),
re-joined and stripped. -/
def enforceLineLimit (platform : Option String) (cleaned : String) : String :=
  if isShortForm platform then
    let lines := (pySplitNl cleaned).map pyRstrip
    let nonEmpty := lines.filter fun l => pyStrip l != ""
    if nonEmpty.length > 6 then pyStrip (pyJoinNl (nonEmpty.take 6)) else cleaned
  else cleaned

/-- `normalize_draft` (lines 383-413).  The initial `strip` and the regex
substitutions of lines 391-404 (code fences, preamble, headers, line-ending
normalisation) are abstracted as `clean : String → String`; the
platform-specific line-limit of lines 406-411 is embedded exactly. -/
def normalize_draft (clean : String → String) (text : String)
    (platform : Option String) : String :=
  enforceLineLimit platform (clean text)

/-- `run_parallel_calls` (lines 416-482), given the two gathered task
results (`Except.error` models a task that raised; `gather` with
`return_exceptions=True` converts it to `{"error": str(e)}`): each
successful draft with truthy content is replaced by its normalised form. -/
def run_parallel_calls (clean : String → String)
    (ra rb : Except String RawResult) (platform : Option String) :
    RawResult × RawResult :=
  let a := match ra with | .ok r => r | .error e => { error := some e }
  let b := match rb with | .ok r => r | .error e => { error := some e }
  let a' := if truthyStr a.content then
      { a with content := some (normalize_draft clean (a.content.getD "") platform) }
    else a
  let b' := if truthyStr b.content then
      { b with content := some (normalize_draft clean (b.content.getD "") platform) }
    else b
  (a', b')

end Writer

/-!
## CLI exit codes
-/

namespace Cli

/-- `multi_ai_writer.main` (lines 485-574): a missing/empty API key exits
via `sys.exit(1)`; otherwise the results (whatever they contain, including
per-model error entries) are printed as JSON and the function returns
`None`, so the process exits 0. -/
def writer_main_exit (api_key : String) (results : RawResult × RawResult) : Nat :=
  if api_key = "" then 1 else 0

/-- Split at the first `=` (Python `raw.split("=", 1)` after an
`"=" in raw` check). -/
def splitFirstEq (raw : String) : String × String :=
  let before := raw.data.takeWhile (fun c => c ≠ '=')
  let after := (raw.data.dropWhile (fun c => c ≠ '=')).drop 1
  (⟨before⟩, ⟨after⟩)

/-- Whether a `--model` argument is rejected by `multi_ai_recs.main` (lines
685-694): no `=`, or an empty stripped label or model id. -/
def invalidModelArg (raw : String) : Bool :=
  if !raw.contains '=' then true
  else
    let lm := splitFirstEq raw
    pyStrip lm.1 == "" || pyStrip lm.2 == ""

/-- `multi_ai_recs.main` (lines 630-741): exit 2 on a blank prompt, missing
API key, or an invalid `--model` spec; otherwise the payload (including any
per-model failures) is written and the function returns 0. -/
def recs_main_exit (prompt api_key : String) (model_args : List String)
    (results : Recs.FanOut) : Nat :=
  if pyStrip prompt = "" then 2
  else if api_key = "" then 2
  else if model_args.any invalidModelArg then 2
  else 0

/-- `firecrawl_search.main` (lines 52-92): exit 2 on a missing API key, 1
when the request raises, 0 otherwise. -/
def firecrawl_main_exit (api_key : String) (request : Except String Unit) : Nat :=
  if api_key = "" then 2
  else match request with
  | .error _ => 1
  | .ok _ => 0

end Cli

/-!
## Helper lemmas and concrete servers used by witnesses
-/

/-- The payload posted by the streaming strategy is always the streaming
payload at the caller budget, whatever the server does. -/
theorem stream_trace_payload (parse : String → Option Recs.Chunk)
    (serverS : Payload → Recs.StreamResp) (model : String) (v : Nat) :
    (Recs.call_openrouter_stream parse serverS model v).2 =
      Recs.mkPayload model v none true := by
  unfold Recs.call_openrouter_stream
  dsimp only
  split
  · rfl
  · split
    · rfl
    · split <;> rfl

/-- A JSON parser that rejects everything (all fragments malformed). -/
def parseNone : String → Option Recs.Chunk := fun _ => none

/-- A streaming server that always raises a stall timeout. -/
def streamTimeoutServer : Payload → Recs.StreamResp := fun _ => .exn .timeout

/-- A batch server answering HTTP 500 with body `rate limited`. -/
def http500Server : Payload → BatchResp := fun _ =>
  .ok { status := 500, text := "rate limited" }

/-- A batch server whose 200 response carries no visible content, some
reasoning text, and finish reason `length` (reasoning exhaustion), whatever
the request. -/
def emptyLengthServer : Payload → BatchResp := fun _ =>
  .ok { status := 200
        data := some { choices := [some { message := some { content := .null, reasoning := some "t" }
                                          finish_reason := some "length" }] } }

/-- A parser recognising the single fragment `LEN` as a chunk whose first
choice carries finish reason `length` and no delta. -/
def parseLen : String → Option Recs.Chunk := fun s =>
  if s = "LEN" then some { choices := [some { finish_reason := some "length" }] }
  else none

/-- A streaming server that serves one `LEN` fragment and ends the stream
(no content, finish reason `length`). -/
def streamLenServer : Payload → Recs.StreamResp := fun _ =>
  .ok 200 "" ["data: LEN"]

/-- A parser recognising `H1` / `H2` as content chunks `"Hel"` / `"lo"`;
everything else is malformed. -/
def parseHello : String → Option Recs.Chunk := fun s =>
  if s = "H1" then some { choices := [some { delta := some { content := some "Hel" } }] }
  else if s = "H2" then some { choices := [some { delta := some { content := some "lo" } }] }
  else none

/-- A streaming server emitting a comment, a blank line, two content
fragments with a malformed fragment between them, and the terminal
marker. -/
def streamHelloServer : Payload → Recs.StreamResp := fun _ =>
  .ok 200 "" [": keep-alive", "", "data: H1", "data: bad", "data: H2", "data: [DONE]"]

/-- A line carrying the `data: ` prefix is neither blank nor an SSE
comment. -/
theorem data_line_shape (line : String) (h : pyStartsWith line "data: " = true) :
    line ≠ "" ∧ pyStartsWith line ":" = false := by
  obtain ⟨cs⟩ := line
  rcases cs with _ | ⟨c1, cs⟩
  · simp [pyStartsWith] at h
  · simp only [pyStartsWith, beq_iff_eq, List.length_cons, List.length_nil,
      List.take_succ_cons, List.cons.injEq] at h
    obtain ⟨hc1, -⟩ := h
    subst hc1
    constructor
    · intro hcon
      have hdata : ("" : String).data = [] := rfl
      rw [← hcon] at hdata
      simp at hdata
    · simp [pyStartsWith]

/-- A batch server whose 200 response carries whitespace-only content and
finish reason `stop`. -/
def wsContentServer : Payload → BatchResp := fun _ =>
  .ok { status := 200
        data := some { choices := [some { message := some { content := .str "   " }
                                          finish_reason := some "stop" }] } }

/-- A batch server whose 200 response has no choices at all. -/
def noChoicesServer : Payload → BatchResp := fun _ =>
  .ok { status := 200, data := some {} }

/-- The results fold of `run_models` computes, at each label, the outcome of
the last `(label, model)` pair with that label (Python dict overwrite
semantics). -/
theorem fold_results_lookup (outcome : String → String → RawResult) (l : String)
    (models : List (String × String)) :
    ∀ (acc : String → Option RawResult) (accL : Option String),
      acc l = accL.map (outcome l) →
      (models.foldl
        (fun acc lm => fun k => if k = lm.1 then some (outcome lm.1 lm.2) else acc k)
        acc) l =
      (models.foldl (fun a lm => if lm.1 = l then some lm.2 else a) accL).map
        (outcome l) := by
  induction models with
  | nil => intro acc accL h; exact h
  | cons lm rest ih =>
    intro acc accL h
    simp only [List.foldl_cons]
    apply ih
    by_cases hl : l = lm.1
    · subst hl
      simp
    · have hl' : ¬(lm.1 = l) := fun hc => hl hc.symm
      simp [hl, hl', h]

/-!
## Line arithmetic for the writer's platform line limit
-/

/-- Accumulator-free specification of splitting at `'\n'`, used to reason
about `pySplitNl`. -/
def splitNl : List Char → List (List Char)
  | [] => [[]]
  | c :: cs =>
    if c = '\n' then [] :: splitNl cs
    else
      match splitNl cs with
      | [] => [[c]]
      | f :: rest => (c :: f) :: rest

theorem splitNl_ne_nil (cs : List Char) : splitNl cs ≠ [] := by
  induction cs with
  | nil => simp [splitNl]
  | cons c cs ih =>
    simp only [splitNl]
    split
    · simp
    · split
      · simp
      · simp

theorem splitNlAux_eq (cs : List Char) :
    ∀ acc, splitNlAux cs acc =
      match splitNl cs with
      | [] => [acc.reverse]
      | f :: rest => (acc.reverse ++ f) :: rest := by
  induction cs with
  | nil => intro acc; simp [splitNlAux, splitNl]
  | cons c cs ih =>
    intro acc
    by_cases hc : c = '\n'
    · subst hc
      simp only [splitNlAux, splitNl, if_pos rfl]
      rw [ih []]
      cases h : splitNl cs with
      | nil => exact absurd h (splitNl_ne_nil cs)
      | cons f rest => simp
    · simp only [splitNlAux, splitNl, if_neg hc]
      rw [ih (c :: acc)]
      cases h : splitNl cs with
      | nil => exact absurd h (splitNl_ne_nil cs)
      | cons f rest => simp
  
theorem pySplitNl_eq (s : String) : pySplitNl s = (splitNl s.data).map String.mk := by
  unfold pySplitNl
  rw [splitNlAux_eq]
  cases h : splitNl s.data with
  | nil => exact absurd h (splitNl_ne_nil _)
  | cons f rest => simp

theorem splitNl_no_newline (l : List Char) (h : '\n' ∉ l) : splitNl l = [l] := by
  induction l with
  | nil => rfl
  | cons c l ih =>
    have hc : c ≠ '\n' := fun hc => h (hc ▸ List.mem_cons_self c l)
    simp only [splitNl, if_neg hc]
    rw [ih (fun hm => h (List.mem_cons_of_mem c hm))]

theorem splitNl_append_newline (l cs : List Char) (h : '\n' ∉ l) :
    splitNl (l ++ '\n' :: cs) = l :: splitNl cs := by
  induction l with
  | nil => simp [splitNl]
  | cons c l ih =>
    have hc : c ≠ '\n' := fun hc => h (hc ▸ List.mem_cons_self c l)
    simp only [List.cons_append, splitNl, if_neg hc]
    rw [List.append_eq, ih (fun hm => h (List.mem_cons_of_mem c hm))]

theorem splitNl_join (L : List (List Char)) (hL : L ≠ [])
    (h : ∀ l ∈ L, '\n' ∉ l) : splitNl (joinNlList L) = L := by
  induction L with
  | nil => exact absurd rfl hL
  | cons l L ih =>
    cases L with
    | nil => exact splitNl_no_newline l (h l (List.mem_cons_self l []))
    | cons l2 L2 =>
      have hjoin : joinNlList (l :: l2 :: L2) = l ++ '\n' :: joinNlList (l2 :: L2) := rfl
      rw [hjoin, splitNl_append_newline l _ (h l (List.mem_cons_self l _))]
      rw [ih (by simp) (fun x hx => h x (List.mem_cons_of_mem l hx))]

/-- Number of `splitNl` fields that are non-empty after stripping. -/
def countNE (cs : List Char) : Nat :=
  ((splitNl cs).filter (fun f => !(stripList f).isEmpty)).length

/-- Number of non-blank lines of a string, in the sense of Python's
`[l for l in s.split("\n") if l.strip()]`. -/
def countNonEmptyLines (s : String) : Nat :=
  ((pySplitNl s).filter (fun l => pyStrip l != "")).length

theorem mk_bne_empty (x : List Char) : ((⟨x⟩ : String) != "") = !x.isEmpty := by
  cases x with
  | nil => rfl
  | cons c cs => rfl

theorem countNonEmptyLines_eq (s : String) : countNonEmptyLines s = countNE s.data := by
  unfold countNonEmptyLines countNE
  rw [pySplitNl_eq, List.filter_map, List.length_map]
  congr 1
  apply List.filter_congr
  intro f _
  exact mk_bne_empty (stripList f)

theorem stripList_cons_ws (c : Char) (f : List Char) (hc : pyIsSpace c = true) :
    stripList (c :: f) = stripList f := by
  unfold stripList stripLeftList
  rw [List.dropWhile_cons_of_pos hc]

theorem countNE_cons_ws (c : Char) (cs : List Char) (hc : pyIsSpace c = true) :
    countNE (c :: cs) = countNE cs := by
  unfold countNE
  by_cases hn : c = '\n'
  · subst hn
    simp only [splitNl, if_pos rfl]
    simp [stripList, stripLeftList, stripRightList]
  · simp only [splitNl, if_neg hn]
    cases h : splitNl cs with
    | nil => exact absurd h (splitNl_ne_nil cs)
    | cons f rest =>
      simp only [List.filter_cons, stripList_cons_ws c f hc]
      split <;> simp

theorem countNE_stripLeft (cs : List Char) : countNE (stripLeftList cs) = countNE cs := by
  induction cs with
  | nil => rfl
  | cons c cs ih =>
    by_cases hc : pyIsSpace c
    · unfold stripLeftList
      rw [List.dropWhile_cons_of_pos hc]
      exact ih.trans (countNE_cons_ws c cs hc).symm
    · unfold stripLeftList
      rw [List.dropWhile_cons_of_neg (by simpa using hc)]

theorem splitNl_concat (cs : List Char) (c : Char) :
    splitNl (cs ++ [c]) =
      if c = '\n' then splitNl cs ++ [[]]
      else (splitNl cs).dropLast ++ [(splitNl cs).getLastD [] ++ [c]] := by
  induction cs with
  | nil =>
    by_cases hn : c = '\n'
    · simp [splitNl, hn]
    · simp [splitNl, hn]
  | cons x cs ih =>
    rw [show (x :: cs) ++ [c] = x :: (cs ++ [c]) from rfl]
    by_cases hx : x = '\n'
    · subst hx
      rw [show splitNl ('\n' :: (cs ++ [c])) = [] :: splitNl (cs ++ [c]) from by
        simp [splitNl]]
      rw [ih]
      by_cases hn : c = '\n'
      · rw [if_pos hn, if_pos hn]
        rw [show splitNl ('\n' :: cs) = [] :: splitNl cs from by simp [splitNl]]
        simp
      · rw [if_neg hn, if_neg hn]
        rw [show splitNl ('\n' :: cs) = [] :: splitNl cs from by simp [splitNl]]
        cases hS : splitNl cs with
        | nil => exact absurd hS (splitNl_ne_nil cs)
        | cons f rest =>
          simp [List.getLastD_eq_getLast?]
    · cases hS : splitNl cs with
      | nil => exact absurd hS (splitNl_ne_nil cs)
      | cons f rest =>
        have hsx : splitNl (x :: cs) = (x :: f) :: rest := by
          simp [splitNl, hx, hS]
        by_cases hn : c = '\n'
        · rw [if_pos hn]
          have h1 : splitNl (cs ++ [c]) = f :: (rest ++ [[]]) := by
            rw [ih, if_pos hn, hS]; rfl
          rw [show splitNl (x :: (cs ++ [c])) = (x :: f) :: (rest ++ [[]]) from by
            simp [splitNl, hx, h1]]
          rw [hsx]
          rfl
        · rw [if_neg hn]
          have h1 : splitNl (cs ++ [c]) =
              (f :: rest).dropLast ++ [(f :: rest).getLastD [] ++ [c]] := by
            rw [ih, if_neg hn, hS]
          cases rest with
          | nil =>
            rw [show splitNl (x :: (cs ++ [c])) = [x :: (f ++ [c])] from by
              simp [splitNl, hx, h1]]
            rw [hsx]
            simp
          | cons f2 rest2 =>
            have h2 : splitNl (cs ++ [c]) =
                f :: ((f2 :: rest2).dropLast ++ [(f2 :: rest2).getLastD [] ++ [c]]) := by
              rw [h1]
              simp [List.getLastD_eq_getLast?]
            rw [show splitNl (x :: (cs ++ [c])) =
                (x :: f) :: ((f2 :: rest2).dropLast ++ [(f2 :: rest2).getLastD [] ++ [c]])
              from by simp [splitNl, hx, h2]]
            rw [hsx]
            simp [List.getLastD_eq_getLast?]

theorem stripRightList_append_ws (x : List Char) (c : Char) (hc : pyIsSpace c = true) :
    stripRightList (x ++ [c]) = stripRightList x := by
  unfold stripRightList
  rw [List.reverse_append, List.reverse_singleton]
  rw [show ([c] : List Char) ++ x.reverse = c :: x.reverse from rfl]
  rw [List.dropWhile_cons_of_pos hc]

theorem stripList_append_ws (x : List Char) (c : Char) (hc : pyIsSpace c = true) :
    stripList (x ++ [c]) = stripList x := by
  unfold stripList stripLeftList
  rw [List.dropWhile_append]
  by_cases h : (x.dropWhile pyIsSpace).isEmpty
  · rw [if_pos h]
    have : List.dropWhile pyIsSpace [c] = [] := by
      rw [List.dropWhile_cons_of_pos hc]
      rfl
    rw [this]
    have hx : List.dropWhile pyIsSpace x = [] := by
      cases he : List.dropWhile pyIsSpace x with
      | nil => rfl
      | cons a l => rw [he] at h; simp at h
    rw [hx]
  · rw [if_neg h]
    exact stripRightList_append_ws _ c hc

theorem countNE_concat_ws (cs : List Char) (c : Char) (hc : pyIsSpace c = true) :
    countNE (cs ++ [c]) = countNE cs := by
  unfold countNE
  rw [splitNl_concat]
  by_cases hn : c = '\n'
  · rw [if_pos hn, List.filter_append]
    simp [stripList, stripLeftList, stripRightList]
  · rw [if_neg hn]
    cases hS : splitNl cs with
    | nil => exact absurd hS (splitNl_ne_nil cs)
    | cons f rest =>
      conv_rhs => rw [← List.dropLast_append_getLast (l := f :: rest) (by simp)]
      rw [List.filter_append, List.filter_append, List.length_append, List.length_append]
      congr 1
      rw [show (f :: rest).getLastD [] = (f :: rest).getLast (by simp) from by
        simp [List.getLastD_eq_getLast?, List.getLast?_eq_getLast]]
      rw [List.filter_singleton, List.filter_singleton,
        stripList_append_ws _ c hc]
      cases hb : (!(stripList ((f :: rest).getLast (by simp))).isEmpty) <;> simp [hb]

theorem countNE_append_ws :
    ∀ (suffix cs : List Char), (∀ c ∈ suffix, pyIsSpace c = true) →
      countNE (cs ++ suffix) = countNE cs := by
  intro suffix
  induction suffix with
  | nil => intro cs _; simp
  | cons c suf ih =>
    intro cs h
    rw [show cs ++ c :: suf = (cs ++ [c]) ++ suf from by simp]
    rw [ih (cs ++ [c]) (fun x hx => h x (List.mem_cons_of_mem c hx))]
    exact countNE_concat_ws cs c (h c (List.mem_cons_self c suf))

theorem countNE_stripRight (cs : List Char) :
    countNE (stripRightList cs) = countNE cs := by
  have hdecomp : cs = stripRightList cs ++ (cs.reverse.takeWhile pyIsSpace).reverse := by
    unfold stripRightList
    rw [← List.reverse_append, List.takeWhile_append_dropWhile, List.reverse_reverse]
  conv_rhs => rw [hdecomp]
  rw [countNE_append_ws]
  intro c hc
  rw [List.mem_reverse] at hc
  exact List.mem_takeWhile_imp hc

theorem countNE_strip (cs : List Char) : countNE (stripList cs) = countNE cs := by
  unfold stripList
  rw [countNE_stripRight, countNE_stripLeft]

theorem splitNl_fields_no_newline (cs : List Char) :
    ∀ f ∈ splitNl cs, '\n' ∉ f := by
  induction cs with
  | nil =>
    intro f hf
    simp [splitNl] at hf
    subst hf
    simp
  | cons c cs ih =>
    intro f hf
    by_cases hc : c = '\n'
    · subst hc
      rw [show splitNl ('\n' :: cs) = [] :: splitNl cs from by simp [splitNl],
        List.mem_cons] at hf
      rcases hf with rfl | hf
      · simp
      · exact ih f hf
    · cases hS : splitNl cs with
      | nil => exact absurd hS (splitNl_ne_nil cs)
      | cons g rest =>
        rw [show splitNl (c :: cs) = (c :: g) :: rest from by simp [splitNl, hc, hS],
          List.mem_cons] at hf
        rcases hf with rfl | hf2
        · intro hmem
          rcases List.mem_cons.mp hmem with hemc | hmem2
          · exact hc hemc.symm
          · exact ih g (hS ▸ List.mem_cons_self g rest) hmem2
        · exact ih f (hS ▸ List.mem_cons_of_mem g hf2)

theorem mem_stripRightList (a : Char) (f : List Char) (h : a ∈ stripRightList f) :
    a ∈ f := by
  unfold stripRightList at h
  rw [List.mem_reverse] at h
  have := List.dropWhile_subset (p := pyIsSpace) (l := f.reverse) h
  rw [List.mem_reverse] at this
  exact this

theorem stripList_nil_all_ws (f : List Char) :
    stripList f = [] ↔ ∀ c ∈ f, pyIsSpace c = true := by
  constructor
  · intro h c hcf
    unfold stripList stripRightList at h
    have hdrop : List.dropWhile pyIsSpace (stripLeftList f).reverse = [] := by
      cases he : List.dropWhile pyIsSpace (stripLeftList f).reverse with
      | nil => rfl
      | cons x l =>
        rw [he] at h
        simp at h
    rw [List.dropWhile_eq_nil_iff] at hdrop
    have hleft : ∀ x ∈ stripLeftList f, pyIsSpace x = true := by
      intro x hx
      exact hdrop x (List.mem_reverse.mpr hx)
    have hdecomp : f = f.takeWhile pyIsSpace ++ stripLeftList f := by
      unfold stripLeftList
      rw [List.takeWhile_append_dropWhile]
    rw [hdecomp] at hcf
    rcases List.mem_append.mp hcf with h1 | h2
    · exact List.mem_takeWhile_imp h1
    · exact hleft c h2
  · intro h
    unfold stripList stripLeftList
    have : List.dropWhile pyIsSpace f = [] := List.dropWhile_eq_nil_iff.mpr h
    rw [this]
    rfl

theorem stripList_stripRight_nil_iff (f : List Char) :
    stripList (stripRightList f) = [] ↔ stripList f = [] := by
  rw [stripList_nil_all_ws, stripList_nil_all_ws]
  constructor
  · intro h c hcf
    have hdecomp : f = stripRightList f ++ (f.reverse.takeWhile pyIsSpace).reverse := by
      unfold stripRightList
      rw [← List.reverse_append, List.takeWhile_append_dropWhile, List.reverse_reverse]
    rw [hdecomp] at hcf
    rcases List.mem_append.mp hcf with h1 | h2
    · exact h c h1
    · exact List.mem_takeWhile_imp (List.mem_reverse.mp h2)
  · intro h c hcf
    exact h c (mem_stripRightList c f hcf)

theorem nonEmpty_lines_eq (s : String) :
    ((pySplitNl s).map pyRstrip).filter (fun l => pyStrip l != "") =
      (((splitNl s.data).map stripRightList).filter
        (fun g => !(stripList g).isEmpty)).map String.mk := by
  rw [pySplitNl_eq, List.map_map]
  have hcomp : pyRstrip ∘ String.mk = String.mk ∘ stripRightList := rfl
  rw [hcomp, ← List.map_map, List.filter_map]
  congr 1
  apply List.filter_congr
  intro g _
  exact mk_bne_empty (stripList g)

theorem pyJoinNl_mk (X : List (List Char)) :
    pyJoinNl (X.map String.mk) = ⟨joinNlList X⟩ := by
  unfold pyJoinNl
  rw [List.map_map]
  have hcomp : String.data ∘ String.mk = id := rfl
  rw [hcomp, List.map_id]

theorem stripList_stripRight_isEmpty (f : List Char) :
    (stripList (stripRightList f)).isEmpty = (stripList f).isEmpty := by
  rw [Bool.eq_iff_iff]
  simp only [List.isEmpty_iff]
  exact stripList_stripRight_nil_iff f

/-!
## Theorems
-/

/-- C9: for every request text and date stamp, the prompt builder emits a
SOURCES section if and only if the grounding text is non-empty after
trimming; when present it follows the date stamp and trimmed request text,
and whitespace-only grounding behaves exactly like absent grounding. -/
theorem C9_grounding_section_iff (r s t : String) :
    build_user_prompt r s t =
      "TODAY: " ++ t ++ "\n\nREQUEST:\n" ++ pyStrip r ++ "\n" ++
        (if pyStrip s = "" then "" else "\nSOURCES:\n" ++ pyStrip s ++ "\n") ∧
    (pyStrip s = "" → build_user_prompt r s t = build_user_prompt r "" t) := by
  have hnil : pyStrip "" = "" := by decide
  constructor
  · unfold build_user_prompt
    by_cases h : pyStrip s = ""
    · simp [h]
    · rw [if_neg h, if_pos (by simpa using h)]
      apply String.ext
      simp
  · intro h
    unfold build_user_prompt
    rw [h, hnil]

/-- C2: for every model with a registered reasoning overhead `o` and every
desired visible budget `v`, the `max_tokens` placed in the outbound payload
is exactly `v + o` (batch and streaming, in both modules), and exactly `v`
for unregistered models. -/
theorem C2_wire_budget (v : Nat) :
    (∀ m o, (m, o) ∈ Recs.MODEL_REASONING_OVERHEAD → ∀ ov st,
        (Recs.mkPayload m v ov st).max_tokens = v + o) ∧
    (∀ m, Recs.MODEL_REASONING_OVERHEAD.lookup m = none → ∀ ov st,
        (Recs.mkPayload m v ov st).max_tokens = v) ∧
    (∀ m o, (m, o) ∈ Writer.MODEL_REASONING_OVERHEAD → ∀ ov,
        (Writer.mkPayload m v ov).max_tokens = v + o) ∧
    (∀ m, Writer.MODEL_REASONING_OVERHEAD.lookup m = none → ∀ ov,
        (Writer.mkPayload m v ov).max_tokens = v) ∧
    (∀ server m ts,
        ((Recs.call_openrouter_batch server m v ts).2.head?).map Payload.max_tokens
          = some (v + Recs.overhead m)) ∧
    (∀ parse serverS m,
        (Recs.call_openrouter_stream parse serverS m v).2.max_tokens
          = v + Recs.overhead m) ∧
    (∀ server m ts,
        ((Writer.call_openrouter server m v ts).2.head?).map Payload.max_tokens
          = some (v + Writer.overhead m)) := by
  refine ⟨?_, ?_, ?_, ?_, ?_, ?_, ?_⟩
  · intro m o h ov st
    simp only [Recs.MODEL_REASONING_OVERHEAD, List.mem_cons, List.mem_singleton] at h
    rcases h with h | h | h
    · rw [Prod.ext_iff] at h
      obtain ⟨rfl, rfl⟩ := h
      simp [Recs.mkPayload, Recs.overhead, Recs.MODEL_REASONING_OVERHEAD, List.lookup]
    · rw [Prod.ext_iff] at h
      obtain ⟨rfl, rfl⟩ := h
      simp [Recs.mkPayload, Recs.overhead, Recs.MODEL_REASONING_OVERHEAD, List.lookup]
    · cases h
  · intro m h ov st
    simp [Recs.mkPayload, Recs.overhead, h]
  · intro m o h ov
    simp only [Writer.MODEL_REASONING_OVERHEAD, List.mem_cons, List.mem_singleton] at h
    rcases h with h | h | h
    · rw [Prod.ext_iff] at h
      obtain ⟨rfl, rfl⟩ := h
      simp [Writer.mkPayload, Writer.overhead, Writer.MODEL_REASONING_OVERHEAD, List.lookup]
    · rw [Prod.ext_iff] at h
      obtain ⟨rfl, rfl⟩ := h
      simp [Writer.mkPayload, Writer.overhead, Writer.MODEL_REASONING_OVERHEAD, List.lookup]
    · cases h
  · intro m h ov
    simp [Writer.mkPayload, Writer.overhead, h]
  · intro server m ts
    unfold Recs.call_openrouter_batch
    dsimp only
    split
    · simp [Recs.mkPayload]
    · split
      · split <;> simp [Recs.mkPayload]
      · simp [Recs.mkPayload]
  · intro parse serverS m
    unfold Recs.call_openrouter_stream
    dsimp only
    split
    · simp [Recs.mkPayload]
    · split
      · simp [Recs.mkPayload]
      · split <;> simp [Recs.mkPayload]
  · intro server m ts
    unfold Writer.call_openrouter
    dsimp only
    split
    · simp [Writer.mkPayload]
    · split
      · split <;> simp [Writer.mkPayload]
      · simp [Writer.mkPayload]

/-- Witness for `C9_grounding_section_iff`: whitespace-only grounding text
builds the same prompt as absent grounding. -/
theorem C9_grounding_section_iff_witness :
    build_user_prompt "req" " \t" "2026-10-12" =
      build_user_prompt "req" "" "2026-10-12" :=
  (C9_grounding_section_iff "req" " \t" "2026-10-12").2 (by decide)

/-- Witness for `C2_wire_budget`: a registered model gets `v + o` on the
wire, an unregistered one gets `v`. -/
theorem C2_wire_budget_witness :
    (Recs.mkPayload "openai/gpt-5.2" 4096 none false).max_tokens = 4096 + 4096 ∧
    (Writer.mkPayload "other/model" 100 none).max_tokens = 100 :=
  ⟨(C2_wire_budget 4096).1 "openai/gpt-5.2" 4096 (by decide) none false,
   (C2_wire_budget 100).2.2.2.1 "other/model" (by decide) none⟩

/-- C3: when the streaming attempt fails with a transport-level exception,
the dispatcher issues exactly one batch call at the original caller budget
and returns that batch call's outcome unchanged. -/
theorem C3_stream_network_fallback (parse : String → Option Recs.Chunk)
    (serverS : Payload → Recs.StreamResp) (serverB : Payload → BatchResp)
    (model : String) (v ts : Nat) (e : Recs.StreamExn)
    (h : (Recs.call_openrouter_stream parse serverS model v).1 = .error e) :
    Recs.call_openrouter parse serverS serverB model v ts true =
      ((Recs.call_openrouter_batch serverB model v ts).1,
        Recs.mkPayload model v none true ::
          (Recs.call_openrouter_batch serverB model v ts).2) := by
  have hs := stream_trace_payload parse serverS model v
  rcases hcs : Recs.call_openrouter_stream parse serverS model v with ⟨res, pl⟩
  rw [hcs] at h hs
  dsimp only at h hs
  subst h; subst hs
  unfold Recs.call_openrouter
  rw [hcs]
  simp

/-- Witness for `C3_stream_network_fallback`: a stalled stream falls back to
one batch call whose HTTP 500 failure is the final outcome. -/
theorem C3_stream_network_fallback_witness :
    Recs.call_openrouter parseNone streamTimeoutServer http500Server
        "openai/gpt-5.2" 1000 30 true =
      ((Recs.call_openrouter_batch http500Server "openai/gpt-5.2" 1000 30).1,
        Recs.mkPayload "openai/gpt-5.2" 1000 none true ::
          (Recs.call_openrouter_batch http500Server "openai/gpt-5.2" 1000 30).2) :=
  C3_stream_network_fallback parseNone streamTimeoutServer http500Server
    "openai/gpt-5.2" 1000 30 .timeout rfl

/-- C4: every failure other than the two retried transitions is terminal.
A streamed result (in-band stream error, HTTP error, or empty response) not
matching the retry guard is returned as-is with no batch request; a batch
first post whose result fails the retry guard, or which raises (timeout /
network error), produces exactly one request and its failure is the
outcome; and any error dict whose message is not the empty-response marker
can never trigger the retry guard. -/
theorem C4_other_failures_terminal (parse : String → Option Recs.Chunk)
    (serverS : Payload → Recs.StreamResp) (serverB : Payload → BatchResp)
    (model : String) (v ts : Nat) :
    (∀ r, (Recs.call_openrouter_stream parse serverS model v).1 = .ok r →
      Recs.retryCondition model r = false →
      Recs.call_openrouter parse serverS serverB model v ts true =
        (r, [Recs.mkPayload model v none true])) ∧
    (∀ r, Recs.post serverB (Recs.mkPayload model v none false) = .ok r →
      Recs.retryCondition model r = false →
      Recs.call_openrouter_batch serverB model v ts =
        (r, [Recs.mkPayload model v none false])) ∧
    (∀ e, Recs.post serverB (Recs.mkPayload model v none false) = .error e →
      Recs.call_openrouter_batch serverB model v ts =
        (Recs.exnResult ts e, [Recs.mkPayload model v none false])) ∧
    (∀ r : RawResult, (∀ s, r.error = some s → s ≠ "Empty response from model") →
      Recs.retryCondition model r = false) := by
  refine ⟨?_, ?_, ?_, ?_⟩
  · intro r hr hcond
    have hs := stream_trace_payload parse serverS model v
    rcases hcs : Recs.call_openrouter_stream parse serverS model v with ⟨res, pl⟩
    rw [hcs] at hr hs
    dsimp only at hr hs
    subst hr; subst hs
    unfold Recs.call_openrouter
    rw [hcs]
    simp [hcond]
  · intro r hpost hcond
    unfold Recs.call_openrouter_batch
    dsimp only
    rw [hpost]
    simp [hcond]
  · intro e hpost
    unfold Recs.call_openrouter_batch
    dsimp only
    rw [hpost]
  · intro r hne
    unfold Recs.retryCondition
    cases he : r.error with
    | none => simp
    | some s =>
      have := hne s he
      simp [this]

/-- Witness for `C4_other_failures_terminal`: an HTTP 500 batch failure is
returned after a single request, with the truncated body in the detail. -/
theorem C4_other_failures_terminal_witness :
    Recs.call_openrouter_batch http500Server "openai/gpt-5.2" 1000 30 =
      ({ error := some "HTTP 500: rate limited" },
        [Recs.mkPayload "openai/gpt-5.2" 1000 none false]) :=
  (C4_other_failures_terminal parseNone streamTimeoutServer http500Server
      "openai/gpt-5.2" 1000 30).2.1
    { error := some "HTTP 500: rate limited" } rfl (by decide)

/-- Counterexample to C1 as stated: (i) the writer retries at effective
budget `min(max(3v, 2000), 8000)` — at `v = 2000` that is 6000, not the
claimed `min(max(3v, 8000), 16000) = 8000`; (ii) the writer records no
effort level; (iii) the writer never retries `openai/gpt-5.2` (a model of
the reduced-effort-eligible set) — a single request is issued; (iv) the
recommendations streaming path reissues the batch strategy whose request
carries the model's default reasoning parameters (`max_tokens = 4096`), not
a small fixed override, and issues two further posts, not one. -/
theorem C1_counterexample :
    (Writer.call_openrouter emptyLengthServer "google/gemini-3.1-pro-preview"
        2000 90).1.retried_with_max_tokens = some 6000 ∧
    min (max (2000 * 3) 8000) 16000 = 8000 ∧ (6000 : Nat) ≠ 8000 ∧
    (Writer.call_openrouter emptyLengthServer "google/gemini-3.1-pro-preview"
        2000 90).1.retried_reasoning_effort = none ∧
    (Writer.call_openrouter emptyLengthServer "openai/gpt-5.2" 2000 90).2.length = 1 ∧
    ((Recs.call_openrouter parseLen streamLenServer emptyLengthServer
        "google/gemini-3.1-pro-preview" 2000 300 true).2.map Payload.reasoning) =
      [some (.rmax 4096), some (.rmax 4096), some (.rmax 512)] :=
  ⟨by decide, by decide, by decide, by decide, by decide, by decide⟩

/-- C1 (amended): on `Failure(EmptyResponse)` with finish reason `length`:
(A) the recommendations batch strategy issues exactly one retry post at
effective budget `min(max(3v, 8000), 16000)` with the reasoning override
`max_tokens = 512`, recording the retry budget and effort `medium` on the
outcome; (B) the recommendations streaming dispatcher reissues the whole
batch strategy at that budget — the reissued request carries the model's
default reasoning parameters, not the override, and may retry once more
internally — and records the budget and effort `medium`; (C) the writer
retries only `google/gemini-3.1-pro-preview`, at effective budget
`min(max(3v, 2000), 8000)` with the `max_tokens = 512` override, recording
only the retry budget; (C') the writer issues no retry for any other
model. -/
theorem C1_retry_policy_amended :
    (∀ (server : Payload → BatchResp) (model : String) (v ts : Nat) (r1 : RawResult),
      Recs.post server (Recs.mkPayload model v none false) = .ok r1 →
      Recs.retryCondition model r1 = true →
      (Recs.call_openrouter_batch server model v ts).2 =
        [Recs.mkPayload model v none false,
         Recs.mkPayload model (Recs.retryBudget v) (some (.rmax 512)) false] ∧
      Recs.retryBudget v = min (max (v * 3) 8000) 16000 ∧
      (∀ r2, Recs.post server
          (Recs.mkPayload model (Recs.retryBudget v) (some (.rmax 512)) false) = .ok r2 →
        (Recs.call_openrouter_batch server model v ts).1 =
          { r2 with
              retried_with_max_tokens := some (Recs.retryBudget v)
              retried_reasoning_effort := some "medium" })) ∧
    (∀ (parse : String → Option Recs.Chunk) (serverS : Payload → Recs.StreamResp)
        (serverB : Payload → BatchResp) (model : String) (v ts : Nat) (r : RawResult),
      (Recs.call_openrouter_stream parse serverS model v).1 = .ok r →
      Recs.retryCondition model r = true →
      Recs.call_openrouter parse serverS serverB model v ts true =
        ({ (Recs.call_openrouter_batch serverB model (Recs.retryBudget v) ts).1 with
            retried_with_max_tokens := some (Recs.retryBudget v)
            retried_reasoning_effort := some "medium" },
          Recs.mkPayload model v none true ::
            (Recs.call_openrouter_batch serverB model (Recs.retryBudget v) ts).2) ∧
      ((Recs.call_openrouter_batch serverB model (Recs.retryBudget v) ts).2.head?).map
          Payload.reasoning = some (Recs.extraParams model)) ∧
    (∀ (server : Payload → BatchResp) (v ts : Nat) (r1 : RawResult),
      Writer.post server (Writer.mkPayload "google/gemini-3.1-pro-preview" v none) = .ok r1 →
      r1.error = some "Empty response from model" →
      r1.finish_reason = some "length" →
      (Writer.call_openrouter server "google/gemini-3.1-pro-preview" v ts).2 =
        [Writer.mkPayload "google/gemini-3.1-pro-preview" v none,
         Writer.mkPayload "google/gemini-3.1-pro-preview" (Writer.retryBudget v)
           (some (.rmax 512))] ∧
      Writer.retryBudget v = min (max (v * 3) 2000) 8000 ∧
      (∀ r2, Writer.post server
          (Writer.mkPayload "google/gemini-3.1-pro-preview" (Writer.retryBudget v)
            (some (.rmax 512))) = .ok r2 →
        (Writer.call_openrouter server "google/gemini-3.1-pro-preview" v ts).1 =
          { r2 with retried_with_max_tokens := some (Writer.retryBudget v) })) ∧
    (∀ (server : Payload → BatchResp) (model : String) (v ts : Nat) (r1 : RawResult),
      model ≠ "google/gemini-3.1-pro-preview" →
      Writer.post server (Writer.mkPayload model v none) = .ok r1 →
      Writer.call_openrouter server model v ts = (r1, [Writer.mkPayload model v none])) := by
  refine ⟨?_, ?_, ?_, ?_⟩
  · intro server model v ts r1 hpost hcond
    unfold Recs.call_openrouter_batch
    dsimp only
    rw [hpost]
    dsimp only
    rw [if_pos hcond]
    refine ⟨?_, rfl, ?_⟩
    · dsimp only
      split <;> rfl
    · intro r2 hpost2
      rw [hpost2]
  · intro parse serverS serverB model v ts r hr hcond
    have hs := stream_trace_payload parse serverS model v
    rcases hcs : Recs.call_openrouter_stream parse serverS model v with ⟨res, pl⟩
    rw [hcs] at hr hs
    dsimp only at hr hs
    subst hr; subst hs
    constructor
    · unfold Recs.call_openrouter
      rw [hcs]
      simp [hcond]
    · unfold Recs.call_openrouter_batch
      dsimp only
      have hreas : (Recs.mkPayload model (Recs.retryBudget v) none false).reasoning =
          Recs.extraParams model := rfl
      split
      · simp [hreas]
      · split
        · split <;> simp [hreas]
        · simp [hreas]
  · intro server v ts r1 hpost herr hfin
    have hcond : ("google/gemini-3.1-pro-preview" == "google/gemini-3.1-pro-preview" &&
        r1.error == some "Empty response from model" &&
        r1.finish_reason == some "length") = true := by
      simp [herr, hfin]
    unfold Writer.call_openrouter
    dsimp only
    rw [hpost]
    dsimp only
    rw [if_pos hcond]
    refine ⟨?_, rfl, ?_⟩
    · dsimp only
      split <;> rfl
    · intro r2 hpost2
      rw [hpost2]
  · intro server model v ts r1 hne hpost
    have hcond : (model == "google/gemini-3.1-pro-preview" &&
        r1.error == some "Empty response from model" &&
        r1.finish_reason == some "length") = false := by
      simp [hne]
    unfold Writer.call_openrouter
    dsimp only
    rw [hpost]
    dsimp only
    rw [if_neg (by simp [hcond])]

/-- Witness for `C1_retry_policy_amended`: a reasoning-exhausted Gemini
batch call in the recommendations module posts exactly the original request
and one retry request at budget 8000 with the 512-token reasoning
override. -/
theorem C1_retry_policy_amended_witness :
    (Recs.call_openrouter_batch emptyLengthServer "google/gemini-3.1-pro-preview"
        2000 300).2 =
      [Recs.mkPayload "google/gemini-3.1-pro-preview" 2000 none false,
       Recs.mkPayload "google/gemini-3.1-pro-preview" 8000 (some (.rmax 512)) false] :=
  (C1_retry_policy_amended.1 emptyLengthServer "google/gemini-3.1-pro-preview" 2000 300
    { error := some "Empty response from model", finish_reason := some "length"
      has_reasoning := some true }
    rfl (by decide)).1

/-- C5: the SSE loop ignores blank and comment lines, skips malformed JSON
fragments, appends content chunks at the end of the accumulated list
(arrival order), accumulates reasoning chunks in the separate reasoning
list, lets a truthy finish reason override whatever was recorded before
(last-non-null wins), and on the concrete stream `["Hel", "lo"]` followed
by the terminal marker returns success with content `"Hello"`. -/
theorem C5_sse_stream_semantics :
    (∀ (parse : String → Option Recs.Chunk) rest st,
      Recs.streamLoop parse ("" :: rest) st = Recs.streamLoop parse rest st) ∧
    (∀ (parse : String → Option Recs.Chunk) line rest st,
      pyStartsWith line ":" = true →
      Recs.streamLoop parse (line :: rest) st = Recs.streamLoop parse rest st) ∧
    (∀ (parse : String → Option Recs.Chunk) line rest st,
      pyStartsWith line "data: " = true →
      pyStrip (pyDrop 6 line) ≠ "[DONE]" →
      parse (pyDrop 6 line) = none →
      Recs.streamLoop parse (line :: rest) st = Recs.streamLoop parse rest st) ∧
    (∀ (parse : String → Option Recs.Chunk) line st c,
      pyStartsWith line "data: " = true →
      pyStrip (pyDrop 6 line) ≠ "[DONE]" →
      parse (pyDrop 6 line) =
        some { choices := [some { delta := some { content := some c } }] } →
      c ≠ "" →
      Recs.procLine parse line st =
        .cont { st with content_parts := st.content_parts ++ [c] }) ∧
    (∀ (parse : String → Option Recs.Chunk) line st c,
      pyStartsWith line "data: " = true →
      pyStrip (pyDrop 6 line) ≠ "[DONE]" →
      parse (pyDrop 6 line) =
        some { choices := [some { delta := some { reasoning := some c } }] } →
      c ≠ "" →
      Recs.procLine parse line st =
        .cont { st with reasoning_parts := st.reasoning_parts ++ [c] }) ∧
    (∀ (parse : String → Option Recs.Chunk) line st fr,
      pyStartsWith line "data: " = true →
      pyStrip (pyDrop 6 line) ≠ "[DONE]" →
      parse (pyDrop 6 line) = some { choices := [some { finish_reason := some fr }] } →
      fr ≠ "" →
      Recs.procLine parse line st = .cont { st with finish_reason := some fr }) ∧
    ((Recs.call_openrouter_stream parseHello streamHelloServer "m" 100).1 =
      .ok { content := some "Hello", streamed := true }) := by
  refine ⟨?_, ?_, ?_, ?_, ?_, ?_, ?_⟩
  · intro parse rest st
    simp [Recs.streamLoop, Recs.procLine]
  · intro parse line rest st h
    simp [Recs.streamLoop, Recs.procLine, h]
  · intro parse line rest st h hdone hparse
    obtain ⟨hne, hcol⟩ := data_line_shape line h
    simp [Recs.streamLoop, Recs.procLine, h, hne, hcol, hdone, hparse]
  · intro parse line st c h hdone hparse hc
    obtain ⟨hne, hcol⟩ := data_line_shape line h
    simp [Recs.procLine, h, hne, hcol, hdone, hparse, truthyStr, hc]
  · intro parse line st c h hdone hparse hc
    obtain ⟨hne, hcol⟩ := data_line_shape line h
    simp [Recs.procLine, h, hne, hcol, hdone, hparse, truthyStr, hc]
  · intro parse line st fr h hdone hparse hfr
    obtain ⟨hne, hcol⟩ := data_line_shape line h
    simp [Recs.procLine, h, hne, hcol, hdone, hparse, truthyStr, hfr]
  · rfl

/-- Witness for `C5_sse_stream_semantics`: a malformed fragment in a
concrete stream is skipped without failing the call. -/
theorem C5_sse_stream_semantics_witness :
    Recs.streamLoop parseHello ["data: bad"] {} = Recs.streamLoop parseHello [] {} :=
  C5_sse_stream_semantics.2.2.1 parseHello "data: bad" [] {}
    (by decide) (by decide) (by decide)

/-- Counterexample to C6 as stated: a 2xx response whose content field is
whitespace-only is truthy in Python, so both modules return it as a success
dict, not `Failure(EmptyResponse)` (the recommendations module strips it to
`""`, the writer returns it verbatim); and a response with no choices array
yields the structural error `"Unexpected response structure"`, which records
neither the finish reason nor whether reasoning was present. -/
theorem C6_counterexample :
    Recs.post wsContentServer (Recs.mkPayload "m" 100 none false) =
      .ok { content := some "", finish_reason := some "stop" } ∧
    Writer.post wsContentServer (Writer.mkPayload "m" 100 none) =
      .ok { content := some "   ", finish_reason := some "stop" } ∧
    Recs.post noChoicesServer (Recs.mkPayload "m" 100 none false) =
      .ok { error := some "Unexpected response structure" } ∧
    "Unexpected response structure" ≠ "Empty response from model" :=
  ⟨rfl, rfl, rfl, by decide⟩

/-- C6 (amended): on a 2xx batch response, `Failure(EmptyResponse)` — with
the finish reason and the reasoning-presence flag recorded — is returned
exactly when the first choice's coerced content is the empty string; an
absent or empty choices array instead yields a structural failure recording
no diagnostics; and non-empty content (even whitespace-only) is returned as
success, stripped by the recommendations module and verbatim by the
writer. -/
theorem C6_empty_response_amended :
    (∀ d : BatchData, d.error = none → ∀ c0 rest, d.choices = c0 :: rest →
      coerce_content_to_text ((c0.getD {}).message.getD {}).content = "" →
      Recs.processBatchData d =
        { error := some "Empty response from model"
          finish_reason := (c0.getD {}).finish_reason
          has_reasoning := some (truthyStr ((c0.getD {}).message.getD {}).reasoning) }) ∧
    (∀ d : BatchData, d.error = none → d.choices = [] →
      Recs.processBatchData d = { error := some "Unexpected response structure" }) ∧
    (∀ d : BatchData, d.error = none → ∀ c0 rest, d.choices = c0 :: rest →
      coerce_content_to_text ((c0.getD {}).message.getD {}).content ≠ "" →
      Recs.processBatchData d =
        { content := some (pyStrip (coerce_content_to_text ((c0.getD {}).message.getD {}).content))
          finish_reason := (c0.getD {}).finish_reason }) ∧
    (∀ d : BatchData, d.error = none → ∀ c0 rest, d.choices = c0 :: rest →
      coerce_content_to_text ((c0.getD {}).message.getD {}).content = "" →
      Writer.processBatchData d =
        .ok { error := some "Empty response from model"
              finish_reason := (c0.getD {}).finish_reason
              has_reasoning := some (truthyStr ((c0.getD {}).message.getD {}).reasoning) }) ∧
    (∀ d : BatchData, d.error = none → d.choices = [] →
      Writer.processBatchData d =
        .ok { error := some ("Unexpected response structure: " ++ pyTake 200 d.reprS) }) ∧
    (∀ d : BatchData, d.error = none → ∀ c0 rest, d.choices = c0 :: rest →
      coerce_content_to_text ((c0.getD {}).message.getD {}).content ≠ "" →
      Writer.processBatchData d =
        .ok { content := some (coerce_content_to_text ((c0.getD {}).message.getD {}).content)
              finish_reason := (c0.getD {}).finish_reason }) := by
  refine ⟨?_, ?_, ?_, ?_, ?_, ?_⟩
  · intro d herr c0 rest hch hc
    unfold Recs.processBatchData
    rw [herr, hch]
    simp [hc]
  · intro d herr hch
    unfold Recs.processBatchData
    rw [herr, hch]
  · intro d herr c0 rest hch hc
    unfold Recs.processBatchData
    rw [herr, hch]
    simp [hc]
  · intro d herr c0 rest hch hc
    unfold Writer.processBatchData
    rw [herr, hch]
    simp [hc]
  · intro d herr hch
    unfold Writer.processBatchData
    rw [herr, hch]
  · intro d herr c0 rest hch hc
    unfold Writer.processBatchData
    rw [herr, hch]
    simp [hc]

/-- Witness for `C6_empty_response_amended`: a truly empty content field
with finish reason `length` and reasoning present yields the diagnostic
empty-response failure. -/
theorem C6_empty_response_amended_witness :
    Recs.processBatchData
        { choices := [some { message := some { content := .null, reasoning := some "x" }
                             finish_reason := some "length" }] } =
      { error := some "Empty response from model"
        finish_reason := some "length"
        has_reasoning := some true } :=
  C6_empty_response_amended.1
    { choices := [some { message := some { content := .null, reasoning := some "x" }
                         finish_reason := some "length" }] }
    rfl _ _ rfl (by decide)

/-- C7: the fan-out result has, for every label, exactly the entry produced
by the last requested `(label, model)` pair with that label (present iff the
label was requested, duplicates overwriting); each entry depends only on its
own label's outcomes, so one model's failure never removes or alters
another's entry; and in the writer a task that raised is captured as an
error dict while the other task's slot is computed independently of it. -/
theorem C7_fanout_isolation :
    (∀ (outcome : String → String → RawResult) (models : List (String × String))
        (sources l : String),
      (Recs.run_models outcome models sources).results l =
        (Recs.lookupLast l models).map (outcome l)) ∧
    (∀ (outcome outcome' : String → String → RawResult)
        (models : List (String × String)) (sources l : String),
      (∀ m, outcome l m = outcome' l m) →
      (Recs.run_models outcome models sources).results l =
        (Recs.run_models outcome' models sources).results l) ∧
    (∀ clean (ra rb : Except String RawResult) platform e, ra = .error e →
      (Writer.run_parallel_calls clean ra rb platform).1 = { error := some e }) ∧
    (∀ clean (ra rb rb' : Except String RawResult) platform,
      (Writer.run_parallel_calls clean ra rb platform).1 =
        (Writer.run_parallel_calls clean ra rb' platform).1) := by
  have key : ∀ (outcome : String → String → RawResult)
      (models : List (String × String)) (sources l : String),
      (Recs.run_models outcome models sources).results l =
        (Recs.lookupLast l models).map (outcome l) := by
    intro outcome models sources l
    unfold Recs.run_models Recs.lookupLast
    exact fold_results_lookup outcome l models (fun _ => none) none rfl
  refine ⟨key, ?_, ?_, ?_⟩
  · intro outcome outcome' models sources l h
    rw [key, key]
    cases hm : Recs.lookupLast l models with
    | none => rfl
    | some m => simp [h m]
  · intro clean ra rb platform e he
    subst he
    simp [Writer.run_parallel_calls, truthyStr]
  · intro clean ra rb rb' platform
    rfl

/-- Witness for `C7_fanout_isolation`: a raised task is captured as an error
entry in the writer's aggregated result. -/
theorem C7_fanout_isolation_witness :
    (Writer.run_parallel_calls id (.error "boom") (.ok {}) none).1 =
      { error := some "boom" } :=
  C7_fanout_isolation.2.2.1 id (.error "boom") (.ok {}) none "boom" rfl

/-- Counterexample to C8 as stated: the writer exits 1 — not 2 — when
credentials are missing, and the two orchestrator tools exit 0 even when
every model request fails (failures are embedded in the output payload, the
exit status stays 0, not 1). -/
theorem C8_counterexample :
    Cli.writer_main_exit "" ({ error := some "No API key" }, { error := some "No API key" }) = 1 ∧
    (1 : Nat) ≠ 2 ∧
    Cli.recs_main_exit "prompt" "key" []
      { results := fun _ => some { error := some "Network error: boom" }
        meta_models := fun _ => none
        has_sources := false } = 0 ∧
    Cli.writer_main_exit "key" ({ error := some "Timeout after 90s" }, { error := some "Timeout after 90s" }) = 0 ∧
    (0 : Nat) ≠ 1 :=
  ⟨rfl, by decide, rfl, rfl, by decide⟩

/-- C8 (amended): `firecrawl_search` exits 0 on success, 2 on missing
credentials and 1 on request failure; the recommendations tool exits 2 on a
blank prompt, missing credentials or an invalid `--model` spec, and 0
otherwise — request failures included, since they are reported inside the
payload; the writer exits 1 on missing credentials and 0 otherwise, request
failures included. -/
theorem C8_exit_codes_amended :
    (∀ req, Cli.firecrawl_main_exit "" req = 2) ∧
    (∀ key e, key ≠ "" → Cli.firecrawl_main_exit key (.error e) = 1) ∧
    (∀ key, key ≠ "" → Cli.firecrawl_main_exit key (.ok ()) = 0) ∧
    (∀ results, Cli.writer_main_exit "" results = 1) ∧
    (∀ key results, key ≠ "" → Cli.writer_main_exit key results = 0) ∧
    (∀ p key args results, pyStrip p = "" → Cli.recs_main_exit p key args results = 2) ∧
    (∀ p args results, pyStrip p ≠ "" → Cli.recs_main_exit p "" args results = 2) ∧
    (∀ p key args results, pyStrip p ≠ "" → key ≠ "" →
      args.any Cli.invalidModelArg = true → Cli.recs_main_exit p key args results = 2) ∧
    (∀ p key args results, pyStrip p ≠ "" → key ≠ "" →
      args.any Cli.invalidModelArg = false → Cli.recs_main_exit p key args results = 0) := by
  refine ⟨?_, ?_, ?_, ?_, ?_, ?_, ?_, ?_, ?_⟩
  · intro req; rfl
  · intro key e h; simp [Cli.firecrawl_main_exit, h]
  · intro key h; simp [Cli.firecrawl_main_exit, h]
  · intro results; rfl
  · intro key results h; simp [Cli.writer_main_exit, h]
  · intro p key args results h; simp [Cli.recs_main_exit, h]
  · intro p args results h; simp [Cli.recs_main_exit, h]
  · intro p key args results hp hk ha; simp [Cli.recs_main_exit, hp, hk, ha]
  · intro p key args results hp hk ha; simp [Cli.recs_main_exit, hp, hk, ha]

/-- Witness for `C8_exit_codes_amended`: with a prompt, a key and no model
overrides, the recommendations tool exits 0 even though every model failed. -/
theorem C8_exit_codes_amended_witness :
    Cli.recs_main_exit "find me a chair" "sk-key" []
      { results := fun _ => some { error := some "Timeout after 300s" }
        meta_models := fun _ => none
        has_sources := false } = 0 :=
  C8_exit_codes_amended.2.2.2.2.2.2.2.2 "find me a chair" "sk-key" []
    { results := fun _ => some { error := some "Timeout after 300s" }
      meta_models := fun _ => none
      has_sources := false }
    (by decide) (by decide) rfl

/-- C10: in the writing tool, with an inferred platform of slack or
linkedin, the content placed in the returned result is the normalised
draft, which contains at most 6 non-blank lines; when the cleaned draft has
more than 6 non-blank lines, exactly the first 6 of them are kept (blank
lines silently dropped) and re-joined, so the caller never receives the
model's longer draft verbatim. -/
theorem C10_short_form_line_limit :
    (∀ (clean : String → String) (text : String) (platform : Option String),
      Writer.isShortForm platform = true →
      countNonEmptyLines (Writer.normalize_draft clean text platform) ≤ 6) ∧
    (∀ (clean : String → String) (text : String) (platform : Option String),
      Writer.isShortForm platform = true →
      6 < (((pySplitNl (clean text)).map pyRstrip).filter
        (fun l => pyStrip l != "")).length →
      Writer.normalize_draft clean text platform =
        pyStrip (pyJoinNl ((((pySplitNl (clean text)).map pyRstrip).filter
          (fun l => pyStrip l != "")).take 6))) ∧
    (∀ (clean : String → String) (ra rb : Except String RawResult)
        (platform : Option String) (r : RawResult) (c : String),
      ra = .ok r → r.content = some c → c ≠ "" →
      (Writer.run_parallel_calls clean ra rb platform).1.content =
        some (Writer.normalize_draft clean c platform)) := by
  refine ⟨?_, ?_, ?_⟩
  · intro clean text platform hshort
    unfold Writer.normalize_draft Writer.enforceLineLimit
    rw [if_pos hshort]
    dsimp only
    rw [nonEmpty_lines_eq (clean text)]
    rw [List.length_map]
    by_cases hlen : (((splitNl (clean text).data).map stripRightList).filter
        (fun g => !(stripList g).isEmpty)).length > 6
    · rw [if_pos hlen]
      rw [← List.map_take, pyJoinNl_mk]
      rw [show pyStrip ⟨joinNlList ((((splitNl (clean text).data).map stripRightList).filter
            (fun g => !(stripList g).isEmpty)).take 6)⟩ =
          ⟨stripList (joinNlList ((((splitNl (clean text).data).map stripRightList).filter
            (fun g => !(stripList g).isEmpty)).take 6))⟩ from rfl]
      rw [countNonEmptyLines_eq]
      rw [show (⟨stripList (joinNlList ((((splitNl (clean text).data).map stripRightList).filter
            (fun g => !(stripList g).isEmpty)).take 6))⟩ : String).data =
          stripList (joinNlList ((((splitNl (clean text).data).map stripRightList).filter
            (fun g => !(stripList g).isEmpty)).take 6)) from rfl]
      rw [countNE_strip]
      have h6 : ((((splitNl (clean text).data).map stripRightList).filter
          (fun g => !(stripList g).isEmpty)).take 6).length = 6 := by
        rw [List.length_take]
        omega
      have hne : (((splitNl (clean text).data).map stripRightList).filter
          (fun g => !(stripList g).isEmpty)).take 6 ≠ [] := by
        intro h
        rw [h] at h6
        simp at h6
      have hnl : ∀ l ∈ (((splitNl (clean text).data).map stripRightList).filter
          (fun g => !(stripList g).isEmpty)).take 6, '\n' ∉ l := by
        intro l hl
        have hl1 : l ∈ ((splitNl (clean text).data).map stripRightList).filter
            (fun g => !(stripList g).isEmpty) := List.take_subset 6 _ hl
        have hl2 := List.mem_of_mem_filter hl1
        rcases List.mem_map.mp hl2 with ⟨f, hfS, rfl⟩
        intro hmem
        exact splitNl_fields_no_newline (clean text).data f hfS
          (mem_stripRightList _ _ hmem)
      calc countNE (joinNlList ((((splitNl (clean text).data).map stripRightList).filter
              (fun g => !(stripList g).isEmpty)).take 6))
          ≤ (splitNl (joinNlList ((((splitNl (clean text).data).map stripRightList).filter
              (fun g => !(stripList g).isEmpty)).take 6))).length :=
            List.length_filter_le _ _
        _ = 6 := by rw [splitNl_join _ hne hnl, h6]
    · rw [if_neg hlen]
      rw [countNonEmptyLines_eq]
      have heq : countNE (clean text).data =
          (((splitNl (clean text).data).map stripRightList).filter
            (fun g => !(stripList g).isEmpty)).length := by
        unfold countNE
        rw [List.filter_map, List.length_map]
        congr 1
        apply List.filter_congr
        intro f _
        show (!(stripList f).isEmpty) = !(stripList (stripRightList f)).isEmpty
        rw [stripList_stripRight_isEmpty]
      rw [heq]
      omega
  · intro clean text platform hshort hlen
    unfold Writer.normalize_draft Writer.enforceLineLimit
    rw [if_pos hshort]
    dsimp only
    rw [if_pos hlen]
  · intro clean ra rb platform r c hra hc hcne
    subst hra
    simp [Writer.run_parallel_calls, truthyStr, hc, hcne]

/-- Witness for `C10_short_form_line_limit`: an eight-line slack draft is
cut to its first six non-blank lines. -/
theorem C10_short_form_line_limit_witness :
    countNonEmptyLines
      (Writer.normalize_draft id "a\nb\nc\n\nd\ne\nf\ng\nh" (some "slack")) ≤ 6 :=
  C10_short_form_line_limit.1 id "a\nb\nc\n\nd\ne\nf\ng\nh" (some "slack") rfl

end AgenticSkills
